import Mathlib

/-!
Verification of the dataset definition / validation / materialization pipeline
of pandas-ai, embedded shallowly from src/pandasai/__init__.py (the functions
create and load).  Collaborator modules that are imported there but whose code
is not part of this repository snapshot (semantic_layer_schema, helpers.path,
sql_sanitizer, the dataset loader and the file manager) are modelled from the
specification; every such definition carries a doc comment saying so.
-/

namespace PandasAI

/-! ## Data model (spec section 3) -/

/-- Column descriptor.  The Python dict keys name/type/description/expression/alias;
the alias key is called aliasName here because alias is a command name in Lean. -/
structure Column where
  name : String
  type : String
  description : Option String := none
  expression : Option String := none
  aliasName : Option String := none
  deriving DecidableEq

/-- A column with a non-empty expression is an aggregated column (spec section 3). -/
def Column.isAggregated (c : Column) : Bool :=
  match c.expression with
  | some e => !(e == "")
  | none => false

/-- Relation descriptor: a join edge between two named tables. -/
structure Relation where
  type : String
  source : String
  target : String
  deriving DecidableEq

/-- Source connector configuration.  Beyond presence/absence checks it is opaque
to this core (spec section 3). -/
structure Source where
  type : String
  table : Option String := none
  deriving DecidableEq

/-- Python truthiness of source.get("table"): the table key is present and non-empty. -/
def Source.tableTruthy (s : Source) : Bool :=
  match s.table with
  | some t => !(t == "")
  | none => false

/-- A transformation parameter value: a scalar or a value-remapping table. -/
inductive ParamValue where
  | str (s : String)
  | mapping (m : List (String × String))
  deriving DecidableEq

/-- Transformation descriptor: a name plus a parameter bag (spec section 3). -/
structure Transformation where
  type : String
  params : List (String × ParamValue) := []
  deriving DecidableEq

/-- Modelled from the spec: the aggregate dataset descriptor
SemanticLayerSchema of pandasai.data_loader.semantic_layer_schema
(spec section 3), whose module is not part of this repository snapshot. -/
structure SemanticLayerSchema where
  name : String
  description : Option String := none
  columns : Option (List Column) := none
  source : Option Source := none
  relations : Option (List Relation) := none
  group_by : Option (List String) := none
  transformations : Option (List Transformation) := none
  view : Bool := false
  deriving DecidableEq

def SemanticLayerSchema.groupByList (s : SemanticLayerSchema) : List String :=
  s.group_by.getD []

def SemanticLayerSchema.columnList (s : SemanticLayerSchema) : List Column :=
  s.columns.getD []

/-! ## Tables and dataframes

A cell is Option String; none models a missing value (NA).  Column types are
kept as strings of the table header; this is enough for every claim, which
compares names, types and row content. -/

abbrev Cell := Option String

structure Table where
  header : List (String × String)
  rows : List (List Cell)
  deriving DecidableEq

/-- A pandas-ai DataFrame: payload data plus its own schema metadata. -/
structure DataFrame where
  schema : SemanticLayerSchema
  data : Table
  deriving DecidableEq

/-! ## Filesystem model

Modelled from the spec: the file manager interface of spec section 6
(exists / mkdir / write / abs_path); the storage root and the project-root
datasets prefix are absorbed into the keying, so create and load address the
same locations.  write prepends; lookup finds the most recent content. -/

inductive FileContent where
  | yaml (s : SemanticLayerSchema)
  | parquet (t : Table)
  deriving DecidableEq

structure FileSystem where
  dirs : List String
  files : List (String × FileContent)
  deriving DecidableEq

def FileSystem.existsPath (fs : FileSystem) (p : String) : Bool :=
  fs.dirs.contains p || (fs.files.lookup p).isSome

def FileSystem.mkdir (fs : FileSystem) (p : String) : FileSystem :=
  if fs.dirs.contains p then fs else { fs with dirs := p :: fs.dirs }

def FileSystem.write (fs : FileSystem) (p : String) (c : FileContent) : FileSystem :=
  { fs with files := (p, c) :: fs.files }

/-! ## Path helpers -/

/-- Errors raised by create.  Each constructor stands for one Python raise site:
invalidPath for the path-format ValueError of get_validated_dataset_path
(InvalidPathError in the spec), datasetAlreadyExists for the ValueError
"Dataset already exists at path", invalidConfig for InvalidConfigError (also
covering pydantic validation failure of the schema), nameError for the Python
NameError reached when the local variable schema is never bound (source given
without a table), loaderError for a loader failure propagating out of create. -/
inductive CreateError where
  | invalidPath
  | datasetAlreadyExists
  | invalidConfig
  | nameError
  | loaderError
  deriving DecidableEq

/-- A segment of a dataset path: lowercase, digits and hyphens, starting with a
letter or digit (spec section 4.1). -/
def validSegment (cs : List Char) : Bool :=
  match cs with
  | [] => false
  | c :: rest => (c.isLower || c.isDigit) && rest.all (fun d => d.isLower || d.isDigit || d == '-')

/-- Split a character list on the slash character. -/
def splitSlash : List Char → List (List Char)
  | [] => [[]]
  | c :: rest =>
    let r := splitSlash rest
    if c == '/' then [] :: r
    else
      match r with
      | [] => [[c]]
      | s :: ss => (c :: s) :: ss

/-- Modelled from the spec: helpers.path.get_validated_dataset_path (spec
section 4.1), whose module is not part of this repository snapshot.  The path
must be exactly two slash-separated valid segments; it yields the pair
(organization, dataset). -/
def get_validated_dataset_path (path : String) : Except CreateError (String × String) :=
  match splitSlash path.toList with
  | [org, ds] =>
    if validSegment org && validSegment ds then .ok (String.mk org, String.mk ds)
    else .error .invalidPath
  | _ => .error .invalidPath

/-- Modelled from the spec: helpers.path.transform_dash_to_underscore (spec
sections 3 and 4.1), whose module is not part of this repository snapshot. -/
def transform_dash_to_underscore (s : String) : String :=
  String.mk (s.toList.map (fun c => if c == '-' then '_' else c))

/-- Modelled from the spec: helpers.sql_sanitizer.sanitize_sql_table_name
(spec section 4.3 step 6: lowercasing / character normalization), whose module
is not part of this repository snapshot. -/
def sanitize_sql_table_name (s : String) : String :=
  String.mk (s.toList.map (fun c =>
    if c.isLower || c.isDigit || c == '_' then c
    else if c.isUpper then c.toLower else '_'))

/-! ## Schema validation (spec section 4.2) -/

/-- A lowercase identifier usable as a path segment and SQL table name; hyphens
are forbidden in the stored name (spec section 3). -/
def validName (s : String) : Bool :=
  !s.toList.isEmpty && s.toList.all (fun c => c.isLower || c.isDigit || c == '_')

def listNodup : List String → Bool
  | [] => true
  | x :: xs => !(xs.contains x) && listNodup xs

/-- Modelled from the spec, check 1 of section 4.2: the name is a valid identifier. -/
def checkName (s : SemanticLayerSchema) : Bool :=
  validName s.name

/-- Modelled from the spec, check 2 of section 4.2: the column list, if present,
has unique names, and every group_by entry references an existing plain column. -/
def checkColumns (s : SemanticLayerSchema) : Bool :=
  (match s.columns with
   | some cs => listNodup (cs.map Column.name)
   | none => true)
  && s.groupByList.all (fun g => s.columnList.any (fun c => !c.isAggregated && c.name == g))

/-- Modelled from the spec, check 3 of section 4.2: if any column carries an
expression, either group_by is non-empty and covers all non-aggregated columns,
or no plain columns exist alongside aggregated ones. -/
def checkAggregation (s : SemanticLayerSchema) : Bool :=
  if s.columnList.any Column.isAggregated then
    let plains := s.columnList.filter (fun c => !c.isAggregated)
    plains.isEmpty || (!s.groupByList.isEmpty && plains.all (fun c => s.groupByList.contains c.name))
  else true

/-- Modelled from the spec, check 4 of section 4.2: exactly one dataset kind.
Materialized is the default when neither a source nor the view flag is present,
so the only conflicting combination expressible in the descriptor itself is a
source together with the view flag. -/
def checkKind (s : SemanticLayerSchema) : Bool :=
  !(s.source.isSome && s.view)

/-- Modelled from the spec: validate of section 4.2, run on every construction
path and on reload.  Check 5 (structural validity of transformation entries) is
vacuous in this typed embedding, where every Transformation value is well-shaped
and unknown types are accepted opaquely. -/
def validateSchema (s : SemanticLayerSchema) : Bool :=
  checkName s && checkColumns s && checkAggregation s && checkKind s

/-! ## Transformation application (spec sections 3, 4.4 and 8) -/

def paramStr (ps : List (String × ParamValue)) (k : String) : Option String :=
  match ps.lookup k with
  | some (.str v) => some v
  | _ => none

def paramMapping (ps : List (String × ParamValue)) (k : String) : Option (List (String × String)) :=
  match ps.lookup k with
  | some (.mapping m) => some m
  | _ => none

def colIndex (header : List (String × String)) (name : String) : Option Nat :=
  header.findIdx? (fun p => p.1 == name)

def mapAt : Nat → (Cell → Cell) → List Cell → List Cell
  | _, _, [] => []
  | 0, f, c :: cs => f c :: cs
  | n + 1, f, c :: cs => c :: mapAt n f cs

/-- Modelled from the spec: the semantics of a single declarative transformation
(sections 3 and 8): fill_na fills missing values of one column, map_values
remaps the values of one column; other types are interpreted by an external
collaborator and act as the identity at this layer. -/
def applyTransformation (t : Transformation) (tbl : Table) : Table :=
  if t.type == "fill_na" then
    match paramStr t.params "column", paramStr t.params "value" with
    | some col, some v =>
      match colIndex tbl.header col with
      | some i =>
        { tbl with rows := tbl.rows.map (mapAt i (fun c => match c with | none => some v | some x => some x)) }
      | none => tbl
    | _, _ => tbl
  else if t.type == "map_values" then
    match paramStr t.params "column", paramMapping t.params "mapping" with
    | some col, some m =>
      match colIndex tbl.header col with
      | some i =>
        { tbl with rows := tbl.rows.map (mapAt i (fun c =>
            match c with
            | some x => (match m.lookup x with | some y => some y | none => some x)
            | none => none)) }
      | none => tbl
    | _, _ => tbl
  else tbl

/-- Transformations apply in declared order (spec section 3). -/
def applyTransformations (ts : List Transformation) (tbl : Table) : Table :=
  ts.foldl (fun acc t => applyTransformation t acc) tbl

/-! ## Artifact locations -/

def datasetDirectory (org ds : String) : String := org ++ "/" ++ ds

def schemaPathOf (dir : String) : String := dir ++ "/schema.yaml"

def parquetPathOf (dir : String) : String := dir ++ "/data.parquet"

/-- The descriptor stored at a dataset directory, when present. -/
def descriptorAt (fs : FileSystem) (dir : String) : Option SemanticLayerSchema :=
  match fs.files.lookup (schemaPathOf dir) with
  | some (.yaml s) => some s
  | _ => none

/-- The columnar payload stored at a dataset directory, when present. -/
def parquetAt (fs : FileSystem) (dir : String) : Option Table :=
  match fs.files.lookup (parquetPathOf dir) with
  | some (.parquet t) => some t
  | _ => none

/-! ## Dataset loader (spec section 4.4) -/

inductive LoadError where
  | invalidPath
  | datasetNotFound
  | invalidConfig
  | ioError
  deriving DecidableEq

/-- The runtime dataset object: a concrete in-memory table for materialized
datasets, a lazily-backed virtual dataset for source-backed datasets and views. -/
inductive Dataset where
  | concrete (schema : SemanticLayerSchema) (data : Table)
  | virtual (schema : SemanticLayerSchema)
  deriving DecidableEq

def schemaHeader (cs : List Column) : List (String × String) :=
  cs.map (fun c => (c.name, c.type))

/-- Modelled from the spec: the load dispatch of the DatasetLoader (section
4.4), whose module is not part of this repository snapshot.  Materialized
datasets (no source, not a view) read the columnar artifact, apply the
transformation list in declared order, and bind column names and types from the
schema; source-backed datasets and views yield a lazily-backed virtual object. -/
def loaderLoad (fs : FileSystem) (schema : SemanticLayerSchema) (dir : String) : Except LoadError Dataset :=
  if schema.source.isNone && !schema.view then
    match parquetAt fs dir with
    | none => .error .ioError
    | some t =>
      let t1 := applyTransformations (schema.transformations.getD []) t
      let t2 := match schema.columns with
        | some cs => { header := schemaHeader cs, rows := t1.rows : Table }
        | none => t1
      .ok (.concrete schema t2)
  else .ok (.virtual schema)

/-- Modelled from the spec: DatasetLoader.create_loader_from_path followed by
load (section 4.4): read the descriptor from disk (DatasetNotFound when none is
present), re-validate it, sanitize the name just before dispatch, dispatch. -/
def loadFromPath (fs : FileSystem) (org ds : String) : Except LoadError Dataset :=
  let dir := datasetDirectory org ds
  match descriptorAt fs dir with
  | none => .error .datasetNotFound
  | some schema =>
    if validateSchema schema then
      loaderLoad fs { schema with name := sanitize_sql_table_name schema.name } dir
    else .error .invalidConfig

/-! ## create (src/pandasai/__init__.py lines 135-203) -/

/-- The arguments of create.  The Python dict arguments (columns, source,
relations, transformations) are taken already in their parsed typed form, which
embeds the always-succeeding keyword constructions Column(**c),
Source(**source), Relation(**r), Transformation(**t). -/
structure CreateArgs where
  path : String
  df : Option DataFrame := none
  description : Option String := none
  columns : Option (List Column) := none
  source : Option Source := none
  relations : Option (List Relation) := none
  view : Bool := false
  group_by : Option (List String) := none
  transformations : Option (List Transformation) := none
  deriving DecidableEq

/-- The Python pattern [parse(x) for x in arg] if arg else None: an omitted or
empty list argument becomes None. -/
def parseIfTruthy {α : Type} (o : Option (List α)) : Option (List α) :=
  match o with
  | some [] => none
  | some xs => some xs
  | none => none

/-- Python: description or schema.description (an omitted or empty description
keeps the schema's own). -/
def pyOrStr (a b : Option String) : Option String :=
  match a with
  | some s => if s == "" then b else some s
  | none => b

/-- What a successful create returns and what it wrote: the loaded dataset
object, the schema snapshot serialized into the descriptor (line 197), the
sanitized schema handed to the loader (lines 201-202), and the final value of
the caller's df.schema, which create mutates in place through aliasing
(line 164 binds schema = df.schema). -/
structure CreateResult where
  loaded : Dataset
  writtenSchema : SemanticLayerSchema
  loaderSchema : SemanticLayerSchema
  dfSchemaAfter : Option SemanticLayerSchema
  deriving DecidableEq

/-- Lines 163-172 of create: the df branch starts from the payload's own schema
(schema = df.schema), overrides name and transformations unconditionally,
columns when the parsed column list is truthy, group_by when the argument is
not None. -/
def dfSchema (df : DataFrame) (n : String) (pt : Option (List Transformation))
    (pc : Option (List Column)) (gb : Option (List String)) : SemanticLayerSchema :=
  let s1 := { df.schema with name := n, transformations := pt }
  let s2 := match pc with
    | some cs => { s1 with columns := some cs }
    | none => s1
  match gb with
  | some g => { s2 with group_by := some g }
  | none => s2

/-- Lines 176-185 of create: the view branch builds a fresh schema with
view set and the relation list (empty when the argument was falsy). -/
def viewSchema (n : String) (rels : List Relation) (pc : Option (List Column))
    (gb : Option (List String)) (pt : Option (List Transformation)) : SemanticLayerSchema :=
  { name := n, relations := some rels, view := true,
    columns := pc, group_by := gb, transformations := pt }

/-- Lines 186-193 of create: the source branch builds a fresh schema carrying
the source configuration. -/
def sourceSchema (n : String) (src : Source) (pc : Option (List Column))
    (gb : Option (List String)) (pt : Option (List Transformation)) : SemanticLayerSchema :=
  { name := n, source := some src,
    columns := pc, group_by := gb, transformations := pt }

/-- Line 195 of create: schema.description = description or schema.description. -/
def descSchema (description : Option String) (schema : SemanticLayerSchema) : SemanticLayerSchema :=
  { schema with description := pyOrStr description schema.description }

/-- Line 201 of create: schema.name = sanitize_sql_table_name(schema.name),
applied to the schema as it stands after the descriptor write. -/
def sanSchema (description : Option String) (schema : SemanticLayerSchema) : SemanticLayerSchema :=
  { descSchema description schema with
    name := sanitize_sql_table_name (descSchema description schema).name }

/-- Lines 195-203 of create: apply the description override, write the
descriptor, sanitize the name, hand the schema to the loader.  The loader error
case is unreachable after a create (the parquet artifact was just written) but
is kept for totality. -/
def finishCreate (fs : FileSystem) (description : Option String) (dir : String)
    (schema : SemanticLayerSchema) (fromDf : Bool) :
    FileSystem × Except CreateError CreateResult :=
  let fs1 := fs.write (schemaPathOf dir) (.yaml (descSchema description schema))
  match loaderLoad fs1 (sanSchema description schema) dir with
  | .error _ => (fs1, .error .loaderError)
  | .ok d =>
    (fs1, .ok { loaded := d, writtenSchema := descSchema description schema,
                loaderSchema := sanSchema description schema,
                dfSchemaAfter := if fromDf then some (sanSchema description schema) else none })

/-- Embeds create of src/pandasai/__init__.py (lines 135-203) as a transition
on the filesystem state.  The initial isinstance check of line 135 is typed
away.  The branch structure follows the source exactly: existence check, mkdir,
the no-kind InvalidConfigError, then the df / view / source branches; pydantic
validation of a schema construction and the explicit model_validate call of the
df branch are both validateSchema. -/
def create (fs : FileSystem) (a : CreateArgs) : FileSystem × Except CreateError CreateResult :=
  match get_validated_dataset_path a.path with
  | .error e => (fs, .error e)
  | .ok (org, ds) =>
    let underscore_dataset_name := transform_dash_to_underscore ds
    let dir := datasetDirectory org ds
    if fs.existsPath dir && fs.existsPath (schemaPathOf dir) then
      (fs, .error .datasetAlreadyExists)
    else
      let fs1 := fs.mkdir dir
      if a.df.isNone && a.source.isNone && !a.view then
        (fs1, .error .invalidConfig)
      else
        let parsed_transformations := parseIfTruthy a.transformations
        let parsed_columns := parseIfTruthy a.columns
        match a.df with
        | some df =>
          let s3 := dfSchema df underscore_dataset_name parsed_transformations
            parsed_columns a.group_by
          if validateSchema s3 then
            let fs2 := fs1.write (parquetPathOf dir) (.parquet df.data)
            finishCreate fs2 a.description dir s3 true
          else (fs1, .error .invalidConfig)
        | none =>
          if a.view then
            let schema := viewSchema underscore_dataset_name (a.relations.getD [])
              parsed_columns a.group_by parsed_transformations
            if validateSchema schema then finishCreate fs1 a.description dir schema false
            else (fs1, .error .invalidConfig)
          else
            match a.source with
            | some src =>
              if src.tableTruthy then
                let schema := sourceSchema underscore_dataset_name src
                  parsed_columns a.group_by parsed_transformations
                if validateSchema schema then finishCreate fs1 a.description dir schema false
                else (fs1, .error .invalidConfig)
              else (fs1, .error .nameError)
            | none => (fs1, .error .nameError)

/-! ## Concrete sample values used by witnesses and counterexamples -/

def fsEmpty : FileSystem := { dirs := [], files := [] }

def colId : Column := { name := "id", type := "integer" }

def sampleDf : DataFrame :=
  { schema := { name := "orig", columns := some [colId] },
    data := { header := [("id", "integer")], rows := [[some "1"]] } }

def noKindArgs : CreateArgs := { path := "a/b" }

def dfArgs : CreateArgs := { path := "a/b", df := some sampleDf }

def conflictArgs : CreateArgs :=
  { path := "a/b", source := some { type := "postgres", table := some "t" },
    view := true,
    relations := some [{ type := "one-to-many", source := "x.a", target := "y.b" }] }

def srcNoTableArgs : CreateArgs :=
  { path := "a/b", source := some { type := "postgres" } }

def srcTableArgs : CreateArgs :=
  { path := "a/b", source := some { type := "postgres", table := some "t" } }

def colV : Column := { name := "v", type := "string" }

def dfNa : DataFrame :=
  { schema := { name := "orig", columns := some [colV] },
    data := { header := [("v", "string")], rows := [[none]] } }

def fillNaV : Transformation :=
  { type := "fill_na", params := [("column", ParamValue.str "v"), ("value", ParamValue.str "0")] }

def transRoundtripArgs : CreateArgs :=
  { path := "a/b", df := some dfNa, transformations := some [fillNaV] }

def colRenamed : Column := { name := "renamed", type := "string" }

def overrideRoundtripArgs : CreateArgs :=
  { path := "a/b", df := some sampleDf, columns := some [colRenamed] }

def emptyColumnsArgs : CreateArgs :=
  { path := "a/b", df := some sampleDf, columns := some [] }

def aggCol : Column := { name := "amount", type := "float", expression := some "sum(amount)" }

def plainP1 : Column := { name := "p1", type := "string" }

def plainP2 : Column := { name := "p2", type := "string" }

/-- A schema with one aggregated column and two plain columns, none grouped. -/
def twoPlainSchema : SemanticLayerSchema :=
  { name := "t", columns := some [aggCol, plainP1, plainP2] }

/-- A schema with one aggregated column and one ungrouped plain column. -/
def onePlainSchema : SemanticLayerSchema :=
  { name := "t", columns := some [aggCol, plainP1] }

/-- The schema that create persists for dfArgs: the sample payload's schema
with the name replaced by the dataset segment of the path. -/
def sampleWritten : SemanticLayerSchema := { name := "b", columns := some [colId] }

/-- The concrete result of create fsEmpty dfArgs. -/
def sampleResult : CreateResult :=
  { loaded := .concrete sampleWritten { header := [("id", "integer")], rows := [[some "1"]] },
    writtenSchema := sampleWritten,
    loaderSchema := sampleWritten,
    dfSchemaAfter := some sampleWritten }

/-- The filesystem state after create fsEmpty dfArgs. -/
def sampleFs1 : FileSystem := (create fsEmpty dfArgs).1

/-- Extract the rows of a concrete dataset. -/
def datasetRows : Dataset → Option (List (List Cell))
  | .concrete _ t => some t.rows
  | .virtual _ => none

/-- Extract the header of a concrete dataset. -/
def datasetHeader : Dataset → Option (List (String × String))
  | .concrete _ t => some t.header
  | .virtual _ => none

/-! ## load (src/pandasai/__init__.py lines 254-286) -/

/-- Embeds load of src/pandasai/__init__.py: validate the path, check existence
of the dataset directory (os.path.exists on the joined dataset path) raising
DatasetNotFound otherwise, then hand over to the loader built from the path. -/
def load (fs : FileSystem) (dataset_path : String) : Except LoadError Dataset :=
  match get_validated_dataset_path dataset_path with
  | .error _ => .error .invalidPath
  | .ok (org, ds) =>
    let dir := datasetDirectory org ds
    if !fs.existsPath dir then .error .datasetNotFound
    else loadFromPath fs org ds

/-! ## Basic lemmas -/

theorem write_dirs (fs : FileSystem) (p : String) (c : FileContent) :
    (fs.write p c).dirs = fs.dirs := rfl

theorem write_files (fs : FileSystem) (p : String) (c : FileContent) :
    (fs.write p c).files = (p, c) :: fs.files := rfl

theorem mkdir_files (fs : FileSystem) (p : String) :
    (fs.mkdir p).files = fs.files := by
  unfold FileSystem.mkdir
  split <;> rfl

theorem mkdir_contains (fs : FileSystem) (p : String) :
    (fs.mkdir p).dirs.contains p = true := by
  unfold FileSystem.mkdir
  split
  · assumption
  · show List.elem p (p :: fs.dirs) = true
    exact List.elem_iff.mpr (List.mem_cons_self p fs.dirs)

theorem schemaPath_ne_parquetPath (d : String) : schemaPathOf d ≠ parquetPathOf d := by
  unfold schemaPathOf parquetPathOf
  intro h
  have h2 : (d ++ "/schema.yaml").data = (d ++ "/data.parquet").data := congrArg String.data h
  rw [String.data_append, String.data_append] at h2
  have h3 := List.append_cancel_left h2
  exact absurd h3 (by decide)

theorem lookup_write_self (fs : FileSystem) (p : String) (c : FileContent) :
    (fs.write p c).files.lookup p = some c := by
  show List.lookup p ((p, c) :: fs.files) = some c
  rw [List.lookup_cons]
  simp

theorem lookup_write_other (fs : FileSystem) (p q : String) (c : FileContent) (h : q ≠ p) :
    (fs.write p c).files.lookup q = fs.files.lookup q := by
  show List.lookup q ((p, c) :: fs.files) = _
  rw [List.lookup_cons]
  simp [beq_eq_false_iff_ne.mpr h]

theorem descriptorAt_write_schema (fs : FileSystem) (dir : String) (s : SemanticLayerSchema) :
    descriptorAt (fs.write (schemaPathOf dir) (.yaml s)) dir = some s := by
  unfold descriptorAt
  rw [lookup_write_self]

theorem parquetAt_write_schema (fs : FileSystem) (dir : String) (c : FileContent) :
    parquetAt (fs.write (schemaPathOf dir) c) dir = parquetAt fs dir := by
  unfold parquetAt
  rw [lookup_write_other _ _ _ _ (Ne.symm (schemaPath_ne_parquetPath dir))]

theorem parquetAt_write_parquet (fs : FileSystem) (dir : String) (t : Table) :
    parquetAt (fs.write (parquetPathOf dir) (.parquet t)) dir = some t := by
  unfold parquetAt
  rw [lookup_write_self]

theorem applyTransformations_nil (t : Table) : applyTransformations [] t = t := rfl

theorem validateSchema_set_description (s : SemanticLayerSchema) (d : Option String) :
    validateSchema { s with description := d } = validateSchema s := rfl

theorem validateSchema_checkKind {s : SemanticLayerSchema} (h : validateSchema s = true) :
    checkKind s = true := by
  unfold validateSchema at h
  simp only [Bool.and_eq_true] at h
  exact h.2

theorem dfSchema_name (df : DataFrame) (n : String) (pt : Option (List Transformation))
    (pc : Option (List Column)) (gb : Option (List String)) :
    (dfSchema df n pt pc gb).name = n := by
  unfold dfSchema
  cases pc <;> cases gb <;> rfl

theorem dfSchema_source (df : DataFrame) (n : String) (pt : Option (List Transformation))
    (pc : Option (List Column)) (gb : Option (List String)) :
    (dfSchema df n pt pc gb).source = df.schema.source := by
  unfold dfSchema
  cases pc <;> cases gb <;> rfl

theorem dfSchema_view (df : DataFrame) (n : String) (pt : Option (List Transformation))
    (pc : Option (List Column)) (gb : Option (List String)) :
    (dfSchema df n pt pc gb).view = df.schema.view := by
  unfold dfSchema
  cases pc <;> cases gb <;> rfl

theorem dfSchema_transformations (df : DataFrame) (n : String) (pt : Option (List Transformation))
    (pc : Option (List Column)) (gb : Option (List String)) :
    (dfSchema df n pt pc gb).transformations = pt := by
  unfold dfSchema
  cases pc <;> cases gb <;> rfl

theorem dfSchema_columns (df : DataFrame) (n : String) (pt : Option (List Transformation))
    (pc : Option (List Column)) (gb : Option (List String)) :
    (dfSchema df n pt pc gb).columns =
      (match pc with | some cs => some cs | none => df.schema.columns) := by
  unfold dfSchema
  cases pc <;> cases gb <;> rfl

theorem dfSchema_group_by (df : DataFrame) (n : String) (pt : Option (List Transformation))
    (pc : Option (List Column)) (gb : Option (List String)) :
    (dfSchema df n pt pc gb).group_by =
      (match gb with | some g => some g | none => df.schema.group_by) := by
  unfold dfSchema
  cases pc <;> cases gb <;> rfl

theorem loaderLoad_ok_of_parquet (fs : FileSystem) (σ : SemanticLayerSchema) (dir : String)
    (t : Table) (h : parquetAt fs dir = some t) :
    ∃ d, loaderLoad fs σ dir = .ok d := by
  unfold loaderLoad
  split
  · rw [h]
    exact ⟨_, rfl⟩
  · exact ⟨_, rfl⟩

theorem loaderLoad_not_notFound (fs : FileSystem) (σ : SemanticLayerSchema) (dir : String) :
    loaderLoad fs σ dir ≠ .error .datasetNotFound := by
  unfold loaderLoad
  split
  · cases parquetAt fs dir <;> simp
  · simp

theorem loaderLoad_virtual (fs : FileSystem) (σ : SemanticLayerSchema) (dir : String)
    (h : (σ.source.isNone && !σ.view) = false) :
    loaderLoad fs σ dir = .ok (.virtual σ) := by
  unfold loaderLoad
  simp [h]

theorem finishCreate_ok_inv {fs : FileSystem} {desc : Option String} {dir : String}
    {σ : SemanticLayerSchema} {b : Bool} {fs₁ : FileSystem} {r : CreateResult}
    (h : finishCreate fs desc dir σ b = (fs₁, .ok r)) :
    r.writtenSchema = descSchema desc σ ∧
    r.loaderSchema = sanSchema desc σ ∧
    r.dfSchemaAfter = (if b then some (sanSchema desc σ) else none) ∧
    fs₁ = fs.write (schemaPathOf dir) (.yaml (descSchema desc σ)) := by
  simp only [finishCreate] at h
  cases hLL : loaderLoad (fs.write (schemaPathOf dir) (FileContent.yaml (descSchema desc σ)))
      (sanSchema desc σ) dir with
  | error err =>
    rw [hLL] at h
    exact absurd (congrArg Prod.snd h) (by simp)
  | ok d =>
    rw [hLL] at h
    dsimp only at h
    have hfs := congrArg Prod.fst h
    have hr := congrArg Prod.snd h
    simp only [Except.ok.injEq] at hr
    subst hr
    exact ⟨rfl, rfl, rfl, hfs.symm⟩

theorem finishCreate_isOk (fs : FileSystem) (desc : Option String) (dir : String)
    (σ : SemanticLayerSchema) (b : Bool)
    (h : (σ.source.isNone && !σ.view) = false ∨ ∃ t, parquetAt fs dir = some t) :
    ∃ fs₁ r, finishCreate fs desc dir σ b = (fs₁, .ok r) := by
  simp only [finishCreate]
  have hok : ∃ d, loaderLoad
      (fs.write (schemaPathOf dir) (FileContent.yaml (descSchema desc σ)))
      (sanSchema desc σ) dir = .ok d := by
    rcases h with h | ⟨t, ht⟩
    · exact ⟨_, loaderLoad_virtual _ _ _ h⟩
    · exact loaderLoad_ok_of_parquet _ _ _ t (by rw [parquetAt_write_schema]; exact ht)
  obtain ⟨d, hd⟩ := hok
  rw [hd]
  exact ⟨_, _, rfl⟩

/-- Inversion of a successful create: the path validated, the dataset did not
already fully exist, some schema was built with the underscore-normalized name
and passed validation, its description-overridden snapshot was written as the
descriptor, and the loader received its sanitized variant. -/
theorem create_ok_inv {fs : FileSystem} {a : CreateArgs} {fs₁ : FileSystem} {r : CreateResult}
    (h : create fs a = (fs₁, .ok r)) :
    ∃ org ds σ,
      get_validated_dataset_path a.path = .ok (org, ds) ∧
      (fs.existsPath (datasetDirectory org ds) &&
        fs.existsPath (schemaPathOf (datasetDirectory org ds))) = false ∧
      validateSchema σ = true ∧
      σ.name = transform_dash_to_underscore ds ∧
      r.writtenSchema = descSchema a.description σ ∧
      r.loaderSchema = sanSchema a.description σ ∧
      descriptorAt fs₁ (datasetDirectory org ds) = some r.writtenSchema ∧
      fs₁.dirs.contains (datasetDirectory org ds) = true := by
  unfold create at h
  cases hp : get_validated_dataset_path a.path with
  | error e =>
    rw [hp] at h
    exact absurd (congrArg Prod.snd h) (by simp)
  | ok od =>
    obtain ⟨org, ds⟩ := od
    rw [hp] at h
    dsimp only at h
    refine ⟨org, ds, ?_⟩
    cases hex : (fs.existsPath (datasetDirectory org ds) &&
        fs.existsPath (schemaPathOf (datasetDirectory org ds))) with
    | true =>
      rw [if_pos hex] at h
      exact absurd (congrArg Prod.snd h) (by simp)
    | false =>
      rw [if_neg (by rw [hex]; exact Bool.false_ne_true)] at h
      cases hkind : (a.df.isNone && a.source.isNone && !a.view) with
      | true =>
        rw [if_pos hkind] at h
        exact absurd (congrArg Prod.snd h) (by simp)
      | false =>
        rw [if_neg (by rw [hkind]; exact Bool.false_ne_true)] at h
        cases hdf : a.df with
        | some df =>
          rw [hdf] at h
          dsimp only at h
          cases hval : validateSchema (dfSchema df (transform_dash_to_underscore ds)
              (parseIfTruthy a.transformations) (parseIfTruthy a.columns) a.group_by) with
          | false =>
            rw [if_neg (by rw [hval]; exact Bool.false_ne_true)] at h
            exact absurd (congrArg Prod.snd h) (by simp)
          | true =>
            rw [if_pos hval] at h
            obtain ⟨hw, hl, hafter, hfs⟩ := finishCreate_ok_inv h
            refine ⟨_, rfl, rfl, hval, dfSchema_name .., hw, hl, ?_, ?_⟩
            · rw [hfs, hw, descriptorAt_write_schema]
            · rw [hfs, write_dirs, write_dirs]
              exact mkdir_contains fs (datasetDirectory org ds)
        | none =>
          rw [hdf] at h
          dsimp only at h
          cases hview : a.view with
          | true =>
            rw [if_pos hview] at h
            cases hval : validateSchema (viewSchema (transform_dash_to_underscore ds)
                (a.relations.getD []) (parseIfTruthy a.columns) a.group_by
                (parseIfTruthy a.transformations)) with
            | false =>
              rw [if_neg (by rw [hval]; exact Bool.false_ne_true)] at h
              exact absurd (congrArg Prod.snd h) (by simp)
            | true =>
              rw [if_pos hval] at h
              obtain ⟨hw, hl, hafter, hfs⟩ := finishCreate_ok_inv h
              refine ⟨_, rfl, rfl, hval, rfl, hw, hl, ?_, ?_⟩
              · rw [hfs, hw, descriptorAt_write_schema]
              · rw [hfs, write_dirs]
                exact mkdir_contains fs (datasetDirectory org ds)
          | false =>
            rw [if_neg (by rw [hview]; exact Bool.false_ne_true)] at h
            cases hsrc : a.source with
            | none =>
              rw [hsrc] at h
              exact absurd (congrArg Prod.snd h) (by simp)
            | some src =>
              rw [hsrc] at h
              dsimp only at h
              cases htab : src.tableTruthy with
              | false =>
                rw [if_neg (by rw [htab]; exact Bool.false_ne_true)] at h
                exact absurd (congrArg Prod.snd h) (by simp)
              | true =>
                rw [if_pos htab] at h
                cases hval : validateSchema (sourceSchema (transform_dash_to_underscore ds)
                    src (parseIfTruthy a.columns) a.group_by
                    (parseIfTruthy a.transformations)) with
                | false =>
                  rw [if_neg (by rw [hval]; exact Bool.false_ne_true)] at h
                  exact absurd (congrArg Prod.snd h) (by simp)
                | true =>
                  rw [if_pos hval] at h
                  obtain ⟨hw, hl, hafter, hfs⟩ := finishCreate_ok_inv h
                  refine ⟨_, rfl, rfl, hval, rfl, hw, hl, ?_, ?_⟩
                  · rw [hfs, hw, descriptorAt_write_schema]
                  · rw [hfs, write_dirs]
                    exact mkdir_contains fs (datasetDirectory org ds)

theorem descriptorAt_isSome {fs : FileSystem} {dir : String} {s : SemanticLayerSchema}
    (h : descriptorAt fs dir = some s) :
    (fs.files.lookup (schemaPathOf dir)).isSome = true := by
  unfold descriptorAt at h
  cases hlk : fs.files.lookup (schemaPathOf dir) with
  | none => rw [hlk] at h; exact absurd h (by simp)
  | some c => simp [hlk]

/-- Inversion of a failing create: no file is ever written on an error path,
and the directories either are untouched or have grown by the (empty) dataset
directory. -/
theorem create_err_inv {fs : FileSystem} {a : CreateArgs} {fs₁ : FileSystem} {e : CreateError}
    (h : create fs a = (fs₁, .error e)) :
    fs₁.files = fs.files ∧
    (fs₁.dirs = fs.dirs ∨
      ∃ org ds, get_validated_dataset_path a.path = .ok (org, ds) ∧
        fs₁ = fs.mkdir (datasetDirectory org ds)) := by
  unfold create at h
  cases hp : get_validated_dataset_path a.path with
  | error e2 =>
    rw [hp] at h
    have hfs : fs = fs₁ := congrArg Prod.fst h
    exact ⟨by rw [← hfs], Or.inl (by rw [← hfs])⟩
  | ok od =>
    obtain ⟨org, ds⟩ := od
    rw [hp] at h
    dsimp only at h
    cases hex : (fs.existsPath (datasetDirectory org ds) &&
        fs.existsPath (schemaPathOf (datasetDirectory org ds))) with
    | true =>
      rw [if_pos hex] at h
      have hfs : fs = fs₁ := congrArg Prod.fst h
      exact ⟨by rw [← hfs], Or.inl (by rw [← hfs])⟩
    | false =>
      rw [if_neg (by rw [hex]; exact Bool.false_ne_true)] at h
      have mk_case : fs.mkdir (datasetDirectory org ds) = fs₁ →
          fs₁.files = fs.files ∧ (fs₁.dirs = fs.dirs ∨
            ∃ org2 ds2, (Except.ok (org, ds) : Except CreateError (String × String)) =
                Except.ok (org2, ds2) ∧
              fs₁ = fs.mkdir (datasetDirectory org2 ds2)) := by
        intro hfs
        exact ⟨by rw [← hfs, mkdir_files], Or.inr ⟨org, ds, rfl, hfs.symm⟩⟩
      cases hkind : (a.df.isNone && a.source.isNone && !a.view) with
      | true =>
        rw [if_pos hkind] at h
        exact mk_case (congrArg Prod.fst h)
      | false =>
        rw [if_neg (by rw [hkind]; exact Bool.false_ne_true)] at h
        cases hdf : a.df with
        | some df =>
          rw [hdf] at h
          dsimp only at h
          cases hval : validateSchema (dfSchema df (transform_dash_to_underscore ds)
              (parseIfTruthy a.transformations) (parseIfTruthy a.columns) a.group_by) with
          | false =>
            rw [if_neg (by rw [hval]; exact Bool.false_ne_true)] at h
            exact mk_case (congrArg Prod.fst h)
          | true =>
            rw [if_pos hval] at h
            obtain ⟨fsx, r, heq⟩ := finishCreate_isOk
              ((fs.mkdir (datasetDirectory org ds)).write
                (parquetPathOf (datasetDirectory org ds)) (.parquet df.data))
              a.description (datasetDirectory org ds) _ true
              (Or.inr ⟨df.data, parquetAt_write_parquet _ _ _⟩)
            rw [heq] at h
            exact absurd (congrArg Prod.snd h) (by simp)
        | none =>
          rw [hdf] at h
          dsimp only at h
          cases hview : a.view with
          | true =>
            rw [if_pos hview] at h
            cases hval : validateSchema (viewSchema (transform_dash_to_underscore ds)
                (a.relations.getD []) (parseIfTruthy a.columns) a.group_by
                (parseIfTruthy a.transformations)) with
            | false =>
              rw [if_neg (by rw [hval]; exact Bool.false_ne_true)] at h
              exact mk_case (congrArg Prod.fst h)
            | true =>
              rw [if_pos hval] at h
              obtain ⟨fsx, r, heq⟩ := finishCreate_isOk
                (fs.mkdir (datasetDirectory org ds)) a.description
                (datasetDirectory org ds)
                (viewSchema (transform_dash_to_underscore ds) (a.relations.getD [])
                  (parseIfTruthy a.columns) a.group_by (parseIfTruthy a.transformations))
                false (Or.inl rfl)
              rw [heq] at h
              exact absurd (congrArg Prod.snd h) (by simp)
          | false =>
            rw [if_neg (by rw [hview]; exact Bool.false_ne_true)] at h
            cases hsrc : a.source with
            | none =>
              rw [hsrc] at h
              exact mk_case (congrArg Prod.fst h)
            | some src =>
              rw [hsrc] at h
              dsimp only at h
              cases htab : src.tableTruthy with
              | false =>
                rw [if_neg (by rw [htab]; exact Bool.false_ne_true)] at h
                exact mk_case (congrArg Prod.fst h)
              | true =>
                rw [if_pos htab] at h
                cases hval : validateSchema (sourceSchema (transform_dash_to_underscore ds)
                    src (parseIfTruthy a.columns) a.group_by
                    (parseIfTruthy a.transformations)) with
                | false =>
                  rw [if_neg (by rw [hval]; exact Bool.false_ne_true)] at h
                  exact mk_case (congrArg Prod.fst h)
                | true =>
                  rw [if_pos hval] at h
                  obtain ⟨fsx, r, heq⟩ := finishCreate_isOk
                    (fs.mkdir (datasetDirectory org ds)) a.description
                    (datasetDirectory org ds)
                    (sourceSchema (transform_dash_to_underscore ds) src
                      (parseIfTruthy a.columns) a.group_by (parseIfTruthy a.transformations))
                    false (Or.inl rfl)
                  rw [heq] at h
                  exact absurd (congrArg Prod.snd h) (by simp)

/-! ## Claims -/

/-- C2: calling create a second time on the same path, after a successful first
create, fails with the dataset-already-exists error (the ValueError of line
148) and returns the filesystem state unchanged, so the first dataset's
descriptor and data artifacts are unmodified; the triggering condition is that
the target directory and the descriptor file both already exist. -/
theorem C2_create_twice_fails (fs : FileSystem) (a a2 : CreateArgs) (fs₁ : FileSystem)
    (r : CreateResult) (h : create fs a = (fs₁, .ok r)) (hpath : a2.path = a.path) :
    create fs₁ a2 = (fs₁, .error .datasetAlreadyExists) := by
  obtain ⟨org, ds, σ, hp, hex, hval, hname, hw, hl, hdesc, hdirs⟩ := create_ok_inv h
  have hex1 : fs₁.existsPath (datasetDirectory org ds) = true := by
    unfold FileSystem.existsPath
    rw [hdirs]
    rfl
  have hex2 : fs₁.existsPath (schemaPathOf (datasetDirectory org ds)) = true := by
    unfold FileSystem.existsPath
    rw [descriptorAt_isSome hdesc, Bool.or_true]
  unfold create
  rw [hpath, hp]
  dsimp only
  rw [if_pos (by rw [hex1, hex2]; rfl)]

/-- C3: descriptors are written only after validation has succeeded, and on
any failure of create no filesystem artifact beyond the (possibly new, empty)
dataset directory is created: every error outcome leaves the file map exactly
as it was, and every success has a validated descriptor on disk. -/
theorem C3_no_artifact_on_failure :
    (∀ (fs : FileSystem) (a : CreateArgs) (fs₁ : FileSystem) (e : CreateError),
      create fs a = (fs₁, .error e) →
      fs₁.files = fs.files ∧
      (fs₁.dirs = fs.dirs ∨
        ∃ org ds, get_validated_dataset_path a.path = .ok (org, ds) ∧
          fs₁ = fs.mkdir (datasetDirectory org ds))) ∧
    (∀ (fs : FileSystem) (a : CreateArgs) (fs₁ : FileSystem) (r : CreateResult),
      create fs a = (fs₁, .ok r) →
      ∃ org ds, get_validated_dataset_path a.path = .ok (org, ds) ∧
        descriptorAt fs₁ (datasetDirectory org ds) = some r.writtenSchema ∧
        validateSchema r.writtenSchema = true) := by
  constructor
  · intro fs a fs₁ e h
    exact create_err_inv h
  · intro fs a fs₁ r h
    obtain ⟨org, ds, σ, hp, hex, hval, hname, hw, hl, hdesc, hdirs⟩ := create_ok_inv h
    refine ⟨org, ds, hp, hdesc, ?_⟩
    rw [hw]
    exact (validateSchema_set_description σ _).trans hval

/-- C3 witness: a concrete failing create (no dataset kind supplied) leaves the
file map of the empty filesystem untouched. -/
theorem C3_no_artifact_on_failure_witness :
    (create fsEmpty noKindArgs).1.files = fsEmpty.files ∧
    ((create fsEmpty noKindArgs).1.dirs = fsEmpty.dirs ∨
      ∃ org ds, get_validated_dataset_path noKindArgs.path = .ok (org, ds) ∧
        (create fsEmpty noKindArgs).1 = fsEmpty.mkdir (datasetDirectory org ds)) :=
  C3_no_artifact_on_failure.1 fsEmpty noKindArgs (create fsEmpty noKindArgs).1
    CreateError.invalidConfig rfl

/-- C2 witness: concretely, re-running create fsEmpty dfArgs on the resulting
state fails with the already-exists error and returns that state unchanged. -/
theorem C2_create_twice_fails_witness :
    create sampleFs1 dfArgs = (sampleFs1, .error .datasetAlreadyExists) :=
  C2_create_twice_fails fsEmpty dfArgs dfArgs sampleFs1 sampleResult rfl rfl

/-- C9: for a successful create on organization/dataset, the name stored in the
persisted descriptor is the dataset segment with hyphens replaced by
underscores, and the SQL-safety sanitization is applied only after the
descriptor write: the schema handed to the loader is exactly the written
schema with its name passed through sanitize_sql_table_name. -/
theorem C9_name_normalization (fs : FileSystem) (a : CreateArgs) (org ds : String)
    (fs₁ : FileSystem) (r : CreateResult)
    (hp : get_validated_dataset_path a.path = .ok (org, ds))
    (h : create fs a = (fs₁, .ok r)) :
    descriptorAt fs₁ (datasetDirectory org ds) = some r.writtenSchema ∧
    r.writtenSchema.name = transform_dash_to_underscore ds ∧
    r.loaderSchema = { r.writtenSchema with name := sanitize_sql_table_name r.writtenSchema.name } := by
  obtain ⟨org2, ds2, σ, hp2, hex, hval, hname, hw, hl, hdesc, hdirs⟩ := create_ok_inv h
  rw [hp] at hp2
  simp only [Except.ok.injEq, Prod.mk.injEq] at hp2
  obtain ⟨horg, hds⟩ := hp2
  subst horg
  subst hds
  refine ⟨hdesc, ?_, ?_⟩
  · rw [hw]
    exact hname
  · rw [hl, hw]
    rfl

/-- C1 counterexample: a call with conflicting kind indicators (a source
config together with view and a non-empty relation list) does not fail with
InvalidConfigError as the claim states: it succeeds outright, because the view
branch takes precedence and the source argument is silently ignored. -/
theorem C1_counterexample :
    conflictArgs.source.isSome = true ∧ conflictArgs.view = true ∧
    conflictArgs.relations = some [{ type := "one-to-many", source := "x.a", target := "y.b" }] ∧
    (create fsEmpty conflictArgs).2.toOption.isSome = true :=
  ⟨rfl, rfl, rfl, rfl⟩

/-- C1 (amended): a call supplying none of df, source and view fails with
InvalidConfigError and writes no descriptor (only the empty directory is
created); conflicting kind indicators do not fail: df takes precedence over
view and view over source, the ignored indicators having no effect on the
outcome; and every produced dataset has exactly one kind in its persisted
descriptor (checkKind). -/
theorem C1_exactly_one_kind :
    (∀ (fs : FileSystem) (a : CreateArgs) (org ds : String),
      get_validated_dataset_path a.path = .ok (org, ds) →
      (fs.existsPath (datasetDirectory org ds) &&
        fs.existsPath (schemaPathOf (datasetDirectory org ds))) = false →
      a.df = none → a.source = none → a.view = false →
      create fs a = (fs.mkdir (datasetDirectory org ds), .error .invalidConfig)) ∧
    (∀ (fs : FileSystem) (a : CreateArgs), a.df = none → a.view = true →
      create fs a = create fs { a with source := none }) ∧
    (∀ (fs : FileSystem) (a : CreateArgs) (df : DataFrame), a.df = some df →
      create fs a = create fs { a with source := none, view := false }) ∧
    (∀ (fs : FileSystem) (a : CreateArgs) (fs₁ : FileSystem) (r : CreateResult),
      create fs a = (fs₁, .ok r) → checkKind r.writtenSchema = true) := by
  refine ⟨?_, ?_, ?_, ?_⟩
  · intro fs a org ds hp hex hdf hsrc hview
    unfold create
    rw [hp]
    dsimp only
    rw [if_neg (by rw [hex]; exact Bool.false_ne_true)]
    rw [if_pos (by rw [hdf, hsrc, hview]; rfl)]
  · intro fs a hdf hview
    simp only [create]
    cases hp : get_validated_dataset_path a.path with
    | error e => rfl
    | ok od =>
      obtain ⟨org, ds⟩ := od
      dsimp only
      split
      · rfl
      · simp [hdf, hview]
  · intro fs a df hdf
    simp only [create]
    cases hp : get_validated_dataset_path a.path with
    | error e => rfl
    | ok od =>
      obtain ⟨org, ds⟩ := od
      dsimp only
      split
      · rfl
      · simp [hdf]
  · intro fs a fs₁ r h
    obtain ⟨org, ds, σ, hp, hex, hval, hname, hw, hl, hdesc, hdirs⟩ := create_ok_inv h
    rw [hw]
    exact validateSchema_checkKind
      ((validateSchema_set_description σ (pyOrStr a.description σ.description)).trans hval)

/-- C1 witness: the no-kind branch instantiated at a concrete call. -/
theorem C1_exactly_one_kind_witness :
    create fsEmpty noKindArgs =
      (fsEmpty.mkdir (datasetDirectory "a" "b"), .error .invalidConfig) :=
  C1_exactly_one_kind.1 fsEmpty noKindArgs "a" "b" rfl rfl rfl rfl rfl

/-- C8: with no DataFrame and view false, a source config that names a table
yields a persisted schema carrying exactly that source config, while a source
config without a (non-empty) table makes create fail, with the NameError of the
unbound schema variable, before any descriptor is written. -/
theorem C8_source_requires_table :
    (∀ (fs : FileSystem) (a : CreateArgs) (src : Source) (fs₁ : FileSystem) (r : CreateResult),
      a.df = none → a.view = false → a.source = some src →
      create fs a = (fs₁, .ok r) → r.writtenSchema.source = some src) ∧
    (∀ (fs : FileSystem) (a : CreateArgs) (src : Source) (org ds : String),
      a.df = none → a.view = false → a.source = some src → src.tableTruthy = false →
      get_validated_dataset_path a.path = .ok (org, ds) →
      (fs.existsPath (datasetDirectory org ds) &&
        fs.existsPath (schemaPathOf (datasetDirectory org ds))) = false →
      create fs a = (fs.mkdir (datasetDirectory org ds), .error .nameError)) := by
  constructor
  · intro fs a src fs₁ r hdf hview hsrc h
    unfold create at h
    cases hp : get_validated_dataset_path a.path with
    | error e =>
      rw [hp] at h
      exact absurd (congrArg Prod.snd h) (by simp)
    | ok od =>
      obtain ⟨org, ds⟩ := od
      rw [hp] at h
      dsimp only at h
      cases hex : (fs.existsPath (datasetDirectory org ds) &&
          fs.existsPath (schemaPathOf (datasetDirectory org ds))) with
      | true =>
        rw [if_pos hex] at h
        exact absurd (congrArg Prod.snd h) (by simp)
      | false =>
        rw [if_neg (by rw [hex]; exact Bool.false_ne_true)] at h
        rw [if_neg (by rw [hdf, hsrc, hview]; exact Bool.false_ne_true)] at h
        rw [hdf] at h
        dsimp only at h
        rw [hview] at h
        rw [if_neg Bool.false_ne_true] at h
        rw [hsrc] at h
        dsimp only at h
        cases htab : src.tableTruthy with
        | false =>
          rw [if_neg (by rw [htab]; exact Bool.false_ne_true)] at h
          exact absurd (congrArg Prod.snd h) (by simp)
        | true =>
          rw [if_pos htab] at h
          cases hval : validateSchema (sourceSchema (transform_dash_to_underscore ds)
              src (parseIfTruthy a.columns) a.group_by
              (parseIfTruthy a.transformations)) with
          | false =>
            rw [if_neg (by rw [hval]; exact Bool.false_ne_true)] at h
            exact absurd (congrArg Prod.snd h) (by simp)
          | true =>
            rw [if_pos hval] at h
            obtain ⟨hw, hl, hafter, hfs⟩ := finishCreate_ok_inv h
            rw [hw]
            rfl
  · intro fs a src org ds hdf hview hsrc htab hp hex
    unfold create
    rw [hp]
    dsimp only
    rw [if_neg (by rw [hex]; exact Bool.false_ne_true)]
    rw [if_neg (by rw [hdf, hsrc, hview]; exact Bool.false_ne_true)]
    rw [hdf]
    dsimp only
    rw [hview]
    rw [if_neg Bool.false_ne_true]
    rw [hsrc]
    dsimp only
    rw [htab]
    rw [if_neg Bool.false_ne_true]

/-- C8 witness: a concrete source-backed call without a table fails with the
unbound-schema NameError after only the directory was created. -/
theorem C8_source_requires_table_witness :
    create fsEmpty srcNoTableArgs =
      (fsEmpty.mkdir (datasetDirectory "a" "b"), .error .nameError) :=
  C8_source_requires_table.2 fsEmpty srcNoTableArgs { type := "postgres" } "a" "b"
    rfl rfl rfl rfl rfl rfl

/-- Inversion of a successful create through the df branch. -/
theorem create_df_ok_inv {fs : FileSystem} {a : CreateArgs} {df : DataFrame}
    {fs₁ : FileSystem} {r : CreateResult} {org ds : String}
    (hdf : a.df = some df)
    (hp : get_validated_dataset_path a.path = .ok (org, ds))
    (h : create fs a = (fs₁, .ok r)) :
    (fs.existsPath (datasetDirectory org ds) &&
      fs.existsPath (schemaPathOf (datasetDirectory org ds))) = false ∧
    validateSchema (dfSchema df (transform_dash_to_underscore ds)
      (parseIfTruthy a.transformations) (parseIfTruthy a.columns) a.group_by) = true ∧
    r.writtenSchema = descSchema a.description (dfSchema df (transform_dash_to_underscore ds)
      (parseIfTruthy a.transformations) (parseIfTruthy a.columns) a.group_by) ∧
    r.loaderSchema = sanSchema a.description (dfSchema df (transform_dash_to_underscore ds)
      (parseIfTruthy a.transformations) (parseIfTruthy a.columns) a.group_by) ∧
    r.dfSchemaAfter = some r.loaderSchema ∧
    fs₁ = ((fs.mkdir (datasetDirectory org ds)).write
      (parquetPathOf (datasetDirectory org ds)) (.parquet df.data)).write
      (schemaPathOf (datasetDirectory org ds)) (.yaml r.writtenSchema) := by
  unfold create at h
  rw [hp] at h
  dsimp only at h
  cases hex : (fs.existsPath (datasetDirectory org ds) &&
      fs.existsPath (schemaPathOf (datasetDirectory org ds))) with
  | true =>
    rw [if_pos hex] at h
    exact absurd (congrArg Prod.snd h) (by simp)
  | false =>
    rw [if_neg (by rw [hex]; exact Bool.false_ne_true)] at h
    rw [if_neg (by rw [hdf]; exact Bool.false_ne_true)] at h
    rw [hdf] at h
    dsimp only at h
    cases hval : validateSchema (dfSchema df (transform_dash_to_underscore ds)
        (parseIfTruthy a.transformations) (parseIfTruthy a.columns) a.group_by) with
    | false =>
      rw [if_neg (by rw [hval]; exact Bool.false_ne_true)] at h
      exact absurd (congrArg Prod.snd h) (by simp)
    | true =>
      rw [if_pos hval] at h
      obtain ⟨hw, hl, hafter, hfs⟩ := finishCreate_ok_inv h
      refine ⟨rfl, rfl, hw, hl, ?_, ?_⟩
      · rw [hafter, hl]
        rfl
      · rw [hfs, hw]

/-- C7: a successful materialized create persists the payload's own schema
with its name replaced by the underscore-normalized dataset segment, its
transformations replaced by the parsed argument (None when the argument is
omitted or empty), its columns overridden only when a non-empty column list was
supplied, its group_by overridden exactly when the argument was supplied; the
resulting schema passed validation and the columnar payload was written to the
data artifact path. -/
theorem C7_materialized_schema (fs : FileSystem) (a : CreateArgs) (df : DataFrame)
    (org ds : String) (fs₁ : FileSystem) (r : CreateResult)
    (hdf : a.df = some df)
    (hp : get_validated_dataset_path a.path = .ok (org, ds))
    (h : create fs a = (fs₁, .ok r)) :
    descriptorAt fs₁ (datasetDirectory org ds) = some r.writtenSchema ∧
    r.writtenSchema.name = transform_dash_to_underscore ds ∧
    r.writtenSchema.transformations = parseIfTruthy a.transformations ∧
    r.writtenSchema.columns =
      (match parseIfTruthy a.columns with
       | some cs => some cs
       | none => df.schema.columns) ∧
    r.writtenSchema.group_by =
      (match a.group_by with
       | some g => some g
       | none => df.schema.group_by) ∧
    validateSchema r.writtenSchema = true ∧
    parquetAt fs₁ (datasetDirectory org ds) = some df.data := by
  obtain ⟨hex, hval, hw, hl, hafter, hfs⟩ := create_df_ok_inv hdf hp h
  refine ⟨?_, ?_, ?_, ?_, ?_, ?_, ?_⟩
  · rw [hfs]
    exact descriptorAt_write_schema _ _ _
  · rw [hw]
    exact dfSchema_name df _ _ _ _
  · rw [hw]
    exact dfSchema_transformations df _ _ _ _
  · rw [hw]
    exact dfSchema_columns df _ _ _ _
  · rw [hw]
    exact dfSchema_group_by df _ _ _ _
  · rw [hw]
    exact (validateSchema_set_description _ _).trans hval
  · rw [hfs, parquetAt_write_schema]
    exact parquetAt_write_parquet _ _ _

/-- C7 witness: instantiated at the sample materialized create of a/b. -/
theorem C7_materialized_schema_witness :
    descriptorAt sampleFs1 (datasetDirectory "a" "b") = some sampleResult.writtenSchema ∧
    sampleResult.writtenSchema.name = transform_dash_to_underscore "b" ∧
    sampleResult.writtenSchema.transformations = parseIfTruthy dfArgs.transformations ∧
    sampleResult.writtenSchema.columns =
      (match parseIfTruthy dfArgs.columns with
       | some cs => some cs
       | none => sampleDf.schema.columns) ∧
    sampleResult.writtenSchema.group_by =
      (match dfArgs.group_by with
       | some g => some g
       | none => sampleDf.schema.group_by) ∧
    validateSchema sampleResult.writtenSchema = true ∧
    parquetAt sampleFs1 (datasetDirectory "a" "b") = some sampleDf.data :=
  C7_materialized_schema fsEmpty dfArgs sampleDf "a" "b" sampleFs1 sampleResult rfl rfl rfl

/-- C10 counterexample: the claim says df.schema.columns is replaced whenever
the columns argument is supplied; supplying the explicit empty list is falsy in
Python, so the payload's original column list survives instead of being
replaced by the empty list. -/
theorem C10_counterexample :
    emptyColumnsArgs.columns = some [] ∧
    (create fsEmpty emptyColumnsArgs).2.toOption.map
      (fun r => r.dfSchemaAfter.map (fun s => s.columns)) = some (some (some [colId])) ∧
    some [colId] ≠ some ([] : List Column) :=
  ⟨rfl, rfl, by decide⟩

/-- C10 (amended): a successful create with a DataFrame leaves the caller's
df.schema (aliased by the created schema object) with the SQL-sanitized
underscore-normalized dataset name, with transformations set to the parsed
argument (None when the argument is omitted or empty), with columns replaced
only when a non-empty column list was supplied, and with group_by replaced
exactly when that argument was supplied. -/
theorem C10_df_schema_mutation (fs : FileSystem) (a : CreateArgs) (df : DataFrame)
    (org ds : String) (fs₁ : FileSystem) (r : CreateResult)
    (hdf : a.df = some df)
    (hp : get_validated_dataset_path a.path = .ok (org, ds))
    (h : create fs a = (fs₁, .ok r)) :
    ∃ σ, r.dfSchemaAfter = some σ ∧
      σ.name = sanitize_sql_table_name (transform_dash_to_underscore ds) ∧
      σ.transformations = parseIfTruthy a.transformations ∧
      σ.columns = (match parseIfTruthy a.columns with
        | some cs => some cs
        | none => df.schema.columns) ∧
      σ.group_by = (match a.group_by with
        | some g => some g
        | none => df.schema.group_by) := by
  obtain ⟨hex, hval, hw, hl, hafter, hfs⟩ := create_df_ok_inv hdf hp h
  refine ⟨r.loaderSchema, hafter, ?_, ?_, ?_, ?_⟩
  · rw [hl]
    exact congrArg sanitize_sql_table_name (dfSchema_name df _ _ _ _)
  · rw [hl]
    exact dfSchema_transformations df _ _ _ _
  · rw [hl]
    exact dfSchema_columns df _ _ _ _
  · rw [hl]
    exact dfSchema_group_by df _ _ _ _

/-- C10 witness: instantiated at the sample materialized create of a/b. -/
theorem C10_df_schema_mutation_witness :
    ∃ σ, sampleResult.dfSchemaAfter = some σ ∧
      σ.name = sanitize_sql_table_name (transform_dash_to_underscore "b") ∧
      σ.transformations = parseIfTruthy dfArgs.transformations ∧
      σ.columns = (match parseIfTruthy dfArgs.columns with
        | some cs => some cs
        | none => sampleDf.schema.columns) ∧
      σ.group_by = (match dfArgs.group_by with
        | some g => some g
        | none => sampleDf.schema.group_by) :=
  C10_df_schema_mutation fsEmpty dfArgs sampleDf "a" "b" sampleFs1 sampleResult rfl rfl rfl

theorem loaderLoad_materialized (fs : FileSystem) (σ : SemanticLayerSchema) (dir : String)
    (t : Table) (cs : List Column)
    (hs : σ.source = none) (hv : σ.view = false) (hpq : parquetAt fs dir = some t)
    (hcols : σ.columns = some cs) (htr : σ.transformations = none) :
    loaderLoad fs σ dir = .ok (.concrete σ { header := schemaHeader cs, rows := t.rows }) := by
  unfold loaderLoad
  rw [if_pos (by rw [hs, hv]; rfl)]
  rw [hpq]
  dsimp only
  rw [htr, hcols]
  rfl

/-- C5: for every valid dataset path, over any well-formed filesystem state (a
present descriptor implies its dataset directory exists), load fails with
DatasetNotFound exactly when no descriptor is present at the resolved dataset
location. -/
theorem C5_load_notFound_iff (fs : FileSystem) (p org ds : String)
    (hp : get_validated_dataset_path p = .ok (org, ds))
    (hwf : (descriptorAt fs (datasetDirectory org ds)).isSome = true →
      fs.existsPath (datasetDirectory org ds) = true) :
    (load fs p = .error .datasetNotFound) ↔
      descriptorAt fs (datasetDirectory org ds) = none := by
  unfold load
  rw [hp]
  dsimp only
  cases hex : fs.existsPath (datasetDirectory org ds) with
  | false =>
    rw [if_pos (by rfl)]
    constructor
    · intro _
      cases hdesc : descriptorAt fs (datasetDirectory org ds) with
      | none => rfl
      | some s =>
        exact absurd (hwf (by rw [hdesc]; rfl)) (by rw [hex]; exact Bool.false_ne_true)
    · intro _
      rfl
  | true =>
    rw [if_neg (by decide)]
    unfold loadFromPath
    dsimp only
    cases hdesc : descriptorAt fs (datasetDirectory org ds) with
    | none => simp
    | some σ =>
      dsimp only
      constructor
      · intro hload
        cases hval : validateSchema σ with
        | true =>
          rw [if_pos hval] at hload
          exact absurd hload (loaderLoad_not_notFound _ _ _)
        | false =>
          rw [if_neg (by rw [hval]; exact Bool.false_ne_true)] at hload
          exact absurd hload (by simp)
      · intro hcontra
        exact absurd hcontra (by simp)

/-- C5 witness: instantiated at the empty filesystem, where no descriptor
exists and load indeed fails with DatasetNotFound. -/
theorem C5_load_notFound_iff_witness :
    (load fsEmpty "a/b" = .error .datasetNotFound) ↔
      descriptorAt fsEmpty (datasetDirectory "a" "b") = none :=
  C5_load_notFound_iff fsEmpty "a/b" "a" "b" rfl (by decide)

/-- C4 counterexample: the claim promises that create immediately followed by
load returns column names, types and rows identical to the input DataFrame for
every materialized create.  With a stored fill_na transformation the loader
transforms the rows, and with a columns override the loader binds the
overridden header, so both parts of the roundtrip identity fail at these
concrete inputs. -/
theorem C4_counterexample :
    ((load (create fsEmpty transRoundtripArgs).1 "a/b").toOption.bind datasetRows =
        some [[some "0"]] ∧
      dfNa.data.rows = [[none]] ∧
      some [[some "0"]] ≠ some [[(none : Cell)]]) ∧
    ((load (create fsEmpty overrideRoundtripArgs).1 "a/b").toOption.bind datasetHeader =
        some [("renamed", "string")] ∧
      sampleDf.data.header = [("id", "integer")] ∧
      some [("renamed", "string")] ≠ some [("id", "integer")]) :=
  ⟨⟨rfl, rfl, by decide⟩, ⟨rfl, rfl, by decide⟩⟩

/-- C4 (amended): for a materialized dataset created with no transformations
and no column override, from a payload whose own schema is materialized
(no source, not a view) and whose column metadata matches its data header,
create immediately followed by load on the same path returns a concrete dataset
whose table (column names, column types and row content) is identical to the
input DataFrame's data. -/
theorem C4_roundtrip (fs : FileSystem) (a : CreateArgs) (df : DataFrame) (cs : List Column)
    (org ds : String) (fs₁ : FileSystem) (r : CreateResult)
    (hdf : a.df = some df)
    (ht : a.transformations = none)
    (hc : a.columns = none)
    (hsrc0 : df.schema.source = none)
    (hview0 : df.schema.view = false)
    (hcols : df.schema.columns = some cs)
    (hheader : schemaHeader cs = df.data.header)
    (hp : get_validated_dataset_path a.path = .ok (org, ds))
    (h : create fs a = (fs₁, .ok r)) :
    ∃ σ, load fs₁ a.path = .ok (.concrete σ df.data) := by
  obtain ⟨hex, hval, hw, hl, hafter, hfs⟩ := create_df_ok_inv hdf hp h
  have hdesc : descriptorAt fs₁ (datasetDirectory org ds) = some r.writtenSchema := by
    rw [hfs]
    exact descriptorAt_write_schema _ _ _
  have hpq : parquetAt fs₁ (datasetDirectory org ds) = some df.data := by
    rw [hfs, parquetAt_write_schema]
    exact parquetAt_write_parquet _ _ _
  have hexists : fs₁.existsPath (datasetDirectory org ds) = true := by
    unfold FileSystem.existsPath
    rw [hfs, write_dirs, write_dirs, mkdir_contains]
    rfl
  have hvwr : validateSchema r.writtenSchema = true := by
    rw [hw]
    exact (validateSchema_set_description _ _).trans hval
  have hsrcw : r.writtenSchema.source = none := by
    rw [hw]
    exact (dfSchema_source df _ _ _ _).trans hsrc0
  have hvieww : r.writtenSchema.view = false := by
    rw [hw]
    exact (dfSchema_view df _ _ _ _).trans hview0
  have htrw : r.writtenSchema.transformations = none := by
    rw [hw]
    exact (dfSchema_transformations df _ _ _ _).trans (by rw [ht]; rfl)
  have hcw : r.writtenSchema.columns = some cs := by
    rw [hw]
    refine (dfSchema_columns df _ _ _ _).trans ?_
    rw [hc]
    exact hcols
  refine ⟨{ r.writtenSchema with name := sanitize_sql_table_name r.writtenSchema.name }, ?_⟩
  unfold load
  rw [hp]
  dsimp only
  rw [if_neg (by rw [hexists]; decide)]
  unfold loadFromPath
  dsimp only
  rw [hdesc]
  dsimp only
  rw [if_pos hvwr]
  rw [loaderLoad_materialized fs₁
    { r.writtenSchema with name := sanitize_sql_table_name r.writtenSchema.name }
    (datasetDirectory org ds) df.data cs hsrcw hvieww hpq hcw htrw]
  rw [hheader]

/-- C4 witness: at the sample materialized create of a/b, load returns the
input data unchanged. -/
theorem C4_roundtrip_witness :
    ∃ σ, load sampleFs1 dfArgs.path = .ok (.concrete σ sampleDf.data) :=
  C4_roundtrip fsEmpty dfArgs sampleDf [colId] "a" "b" sampleFs1 sampleResult
    rfl rfl rfl rfl rfl rfl rfl rfl rfl

/-- C6 counterexample: with one aggregated column and two plain columns p1 and
p2 neither of which is grouped, adding only p1 to group_by leaves validation
failing (p2 is still uncovered), refuting the claim that adding the offending
plain column to group_by makes the same schema pass. -/
theorem C6_counterexample :
    twoPlainSchema.columnList.any Column.isAggregated = true ∧
    plainP1 ∈ twoPlainSchema.columnList ∧
    plainP1.isAggregated = false ∧
    twoPlainSchema.groupByList.contains plainP1.name = false ∧
    validateSchema { twoPlainSchema with
      group_by := some (twoPlainSchema.groupByList ++ [plainP1.name]) } = false :=
  ⟨rfl, by decide, rfl, rfl, rfl⟩

/-- C6 (amended): a schema with an aggregated column and a plain column not
listed in group_by always fails validation; and adding that plain column to
group_by makes the schema pass provided it was the only uncovered plain column
and the remaining checks hold (valid name, unique column names, existing
group_by entries referencing plain columns, no source/view conflict). -/
theorem C6_group_by_validation :
    (∀ (s : SemanticLayerSchema) (c p : Column),
      c ∈ s.columnList → c.isAggregated = true →
      p ∈ s.columnList → p.isAggregated = false →
      s.groupByList.contains p.name = false →
      validateSchema s = false) ∧
    (∀ (s : SemanticLayerSchema) (cs : List Column) (p : Column),
      s.columns = some cs →
      checkName s = true →
      checkKind s = true →
      listNodup (cs.map Column.name) = true →
      (∀ g ∈ s.groupByList, cs.any (fun c => !c.isAggregated && c.name == g) = true) →
      p ∈ cs → p.isAggregated = false →
      (∀ q ∈ cs, q.isAggregated = false → q ≠ p → s.groupByList.contains q.name = true) →
      validateSchema { s with group_by := some (s.groupByList ++ [p.name]) } = true) := by
  constructor
  · intro s c p hc hcagg hpmem hpagg hgb
    have hmem : p ∈ s.columnList.filter (fun q => !q.isAggregated) :=
      List.mem_filter.mpr ⟨hpmem, by rw [hpagg]; rfl⟩
    have hAgg : checkAggregation s = false := by
      unfold checkAggregation
      rw [if_pos (List.any_eq_true.mpr ⟨c, hc, hcagg⟩)]
      have h1 : (s.columnList.filter (fun q => !q.isAggregated)).isEmpty = false := by
        rw [Bool.eq_false_iff]
        intro hemp
        exact List.ne_nil_of_mem hmem (List.isEmpty_iff.mp hemp)
      have h2 : (s.columnList.filter (fun q => !q.isAggregated)).all
          (fun q => s.groupByList.contains q.name) = false := by
        rw [Bool.eq_false_iff]
        intro hall
        have hcontains := List.all_eq_true.mp hall p hmem
        rw [hgb] at hcontains
        exact Bool.false_ne_true hcontains
      simp only [h1, h2, Bool.and_false, Bool.false_or]
    unfold validateSchema
    rw [hAgg, Bool.and_false, Bool.false_and]
  · intro s cs p hcols hn hk hnodup hrefs hpmem hpagg hcov
    have h1 : checkName { s with group_by := some (s.groupByList ++ [p.name]) } = true := hn
    have h4 : checkKind { s with group_by := some (s.groupByList ++ [p.name]) } = true := hk
    have h2 : checkColumns { s with group_by := some (s.groupByList ++ [p.name]) } = true := by
      show ((match s.columns with
              | some cs2 => listNodup (cs2.map Column.name)
              | none => true) &&
            (s.groupByList ++ [p.name]).all (fun g =>
              (s.columns.getD []).any (fun c => !c.isAggregated && c.name == g))) = true
      rw [hcols]
      show (listNodup (cs.map Column.name) &&
            (s.groupByList ++ [p.name]).all (fun g =>
              cs.any (fun c => !c.isAggregated && c.name == g))) = true
      rw [hnodup, List.all_append]
      have ha : s.groupByList.all (fun g => cs.any (fun c => !c.isAggregated && c.name == g)) = true :=
        List.all_eq_true.mpr hrefs
      have hb : ([p.name].all (fun g => cs.any (fun c => !c.isAggregated && c.name == g))) = true := by
        simp only [List.all_cons, List.all_nil, Bool.and_true]
        exact List.any_eq_true.mpr ⟨p, hpmem, by rw [hpagg]; simp⟩
      rw [ha, hb]
      rfl
    have h3 : checkAggregation { s with group_by := some (s.groupByList ++ [p.name]) } = true := by
      show (if (s.columns.getD []).any Column.isAggregated = true then
              ((s.columns.getD []).filter (fun c => !c.isAggregated)).isEmpty ||
                (!(s.groupByList ++ [p.name]).isEmpty &&
                  ((s.columns.getD []).filter (fun c => !c.isAggregated)).all
                    (fun c => (s.groupByList ++ [p.name]).contains c.name))
            else true) = true
      rw [hcols]
      show (if cs.any Column.isAggregated = true then
              (cs.filter (fun c => !c.isAggregated)).isEmpty ||
                (!(s.groupByList ++ [p.name]).isEmpty &&
                  (cs.filter (fun c => !c.isAggregated)).all
                    (fun c => (s.groupByList ++ [p.name]).contains c.name))
            else true) = true
      cases hany : cs.any Column.isAggregated with
      | false => rw [if_neg (by decide)]
      | true =>
        rw [if_pos rfl]
        have hall : (cs.filter (fun c => !c.isAggregated)).all
            (fun c => (s.groupByList ++ [p.name]).contains c.name) = true := by
          refine List.all_eq_true.mpr ?_
          intro q hq
          obtain ⟨hqmem, hqplain⟩ := List.mem_filter.mp hq
          have hqagg : q.isAggregated = false := by
            cases hqa : q.isAggregated with
            | false => rfl
            | true => rw [hqa] at hqplain; exact absurd hqplain (by decide)
          by_cases hqp : q = p
          · subst hqp
            show List.elem q.name (s.groupByList ++ [q.name]) = true
            exact List.elem_iff.mpr (List.mem_append_right _ (List.mem_singleton_self q.name))
          · have hcq := hcov q hqmem hqagg hqp
            show List.elem q.name (s.groupByList ++ [p.name]) = true
            exact List.elem_iff.mpr (List.mem_append_left _ (List.elem_iff.mp hcq))
        have hne : (!(s.groupByList ++ [p.name]).isEmpty) = true := by
          simp
        rw [hall, hne]
        simp
    unfold validateSchema
    rw [h1, h2, h3, h4]
    rfl

/-- C6 witness: with one aggregated column and one ungrouped plain column the
schema fails validation, and grouping that single plain column makes it pass. -/
theorem C6_group_by_validation_witness :
    validateSchema onePlainSchema = false ∧
    validateSchema { onePlainSchema with
      group_by := some (onePlainSchema.groupByList ++ [plainP1.name]) } = true :=
  ⟨C6_group_by_validation.1 onePlainSchema aggCol plainP1
      (by decide) (by decide) (by decide) (by decide) (by decide),
    C6_group_by_validation.2 onePlainSchema [aggCol, plainP1] plainP1
      rfl (by decide) (by decide) (by decide) (by decide) (by decide) (by decide)
      (by decide)⟩

/-- C9 witness: instantiated at the sample create of a/b with a DataFrame. -/
theorem C9_name_normalization_witness :
    descriptorAt sampleFs1 (datasetDirectory "a" "b") = some sampleResult.writtenSchema ∧
    sampleResult.writtenSchema.name = transform_dash_to_underscore "b" ∧
    sampleResult.loaderSchema =
      { sampleResult.writtenSchema with
        name := sanitize_sql_table_name sampleResult.writtenSchema.name } :=
  C9_name_normalization fsEmpty dfArgs "a" "b" sampleFs1 sampleResult rfl rfl

end PandasAI
